import Mathlib

/-!
Verification development for the DefectsDashboard repository.

The repository is a Python defect-tracking dashboard with three source
files: `app.py` (loader / aggregator / presentation callbacks),
`defectsextraction.py` (Azure DevOps extractor) and `jiraextraction.py`
(Jira extractor).  This file gives a shallow embedding of the data
pipeline — severity normalization, state mapping, the open-defect
aggregation, the extraction loops and the drill-down filter logic — and
proves or refutes the frozen specification claims about it.
-/

namespace Defects

/-! ## Severity normalization (app.py, `load_data`, lines 61-72)

`df["Severity"].astype(str).str.replace(r"^\d+\s*-\s*", "", regex=True).str.strip()`
followed by `.map(severity_map).fillna("Unknown")`. -/

/-- Whitespace characters matched by Python's `\s` and `str.strip()`. -/
def isPySpace (c : Char) : Bool :=
  c = ' ' || c = '\t' || c = '\n' || c = '\r' || c = '\x0b' || c = '\x0c'

/-- The regex substitution `^\d+\s*-\s*` → `""` applied to a string:
one or more leading digits, optional whitespace, a dash, optional
whitespace, all removed; if the anchored pattern does not match the
string is returned unchanged. -/
def stripSevNum (s : String) : String :=
  match s.data with
  | [] => s
  | c :: _ =>
    if c.isDigit then
      match (s.data.dropWhile Char.isDigit).dropWhile isPySpace with
      | '-' :: rest => ⟨rest.dropWhile isPySpace⟩
      | _ => s
    else s

/-- Python's `str.strip()`: remove whitespace from both ends. -/
def pyStrip (s : String) : String :=
  ⟨((s.data.dropWhile isPySpace).reverse.dropWhile isPySpace).reverse⟩

/-- The `severity_map` dict of `load_data` (app.py lines 65-71):
identity on the five canonical buckets, `None` otherwise
(`.map` yields NaN for keys not in the dict). -/
def severity_map (s : String) : Option String :=
  if s = "Suggestion" then some "Suggestion"
  else if s = "Low" then some "Low"
  else if s = "Medium" then some "Medium"
  else if s = "High" then some "High"
  else if s = "Critical" then some "Critical"
  else none

/-- The full load-side severity cleaning of app.py lines 61-72:
strip a numeric prefix, strip whitespace, map through `severity_map`,
and `fillna("Unknown")`. -/
def normalizeSeverity (raw : String) : String :=
  (severity_map (pyStrip (stripSevNum raw))).getD "Unknown"

/-- The fixed severity priority list `severity_order` (app.py line 129). -/
def severity_order : List String :=
  ["Critical", "High", "Medium", "Low", "Suggestion"]

/-! ## State mapping (app.py lines 44-54, jiraextraction.py lines 16-26) -/

/-- The DevOps-side `state_mapping` dict of `load_data` (app.py lines 48-53). -/
def state_mapping (s : String) : Option String :=
  if s = "Active" then some "Reopen"
  else if s = "New" then some "New"
  else if s = "Closed" then some "Closed"
  else if s = "Resolved" then some "Resolved"
  else none

/-- `df["State"].map(state_mapping).fillna(df["State"])` (app.py line 54):
mapped value when present, otherwise the raw state unchanged. -/
def devopsStateDisplay (s : String) : String :=
  (state_mapping s).getD s

/-- The Jira extractor's `STATE_MAPPING` dict (jiraextraction.py lines 16-26). -/
def STATE_MAPPING (s : String) : Option String :=
  if s = "Open" then some "New"
  else if s = "New" then some "New"
  else if s = "To Do" then some "New"
  else if s = "Reopen" then some "Reopen"
  else if s = "In Progress" then some "New"
  else if s = "In Development" then some "New"
  else if s = "Done" then some "Closed"
  else if s = "Closed" then some "Closed"
  else if s = "Resolved" then some "Resolved"
  else none

/-- `mapped_state = STATE_MAPPING.get(jira_status, jira_status)`
(jiraextraction.py line 158). -/
def jiraMappedState (s : String) : String :=
  (STATE_MAPPING s).getD s

/-! ## Loaded table and open-defect aggregation (app.py) -/

/-- One row of the in-memory table after `load_data`: the fields the
aggregation and filter logic of `update_all` actually read. -/
structure Row where
  state_Display : String
  severity : String
  assignedTo : String
deriving Repr, DecidableEq

/-- `.str.lower()`: every character lower-cased. -/
def pyLower (s : String) : String :=
  ⟨s.data.map Char.toLower⟩

/-- `df[~df["State_Display"].str.lower().isin(["closed", "resolved"])]`
(app.py line 373): the open subset, case-insensitive on the display state. -/
def openRows (df : List Row) : List Row :=
  df.filter (fun r => !(pyLower r.state_Display = "closed" ||
                        pyLower r.state_Display = "resolved"))

/-- `df_open["Severity"].value_counts().reindex(severity_order, fill_value=0)`
(app.py line 376): counts for exactly the five severities of
`severity_order`, in that order, zero-filled when absent.  Any other
severity value (for instance "Unknown") is dropped by the `reindex`. -/
def severityCounts (df : List Row) : List (String × Nat) :=
  severity_order.map (fun s => (s, ((openRows df).filter (fun r => r.severity = s)).length))

/-- Per-state count over the whole table
(`df["State_Display"].value_counts()`, app.py lines 379-387). -/
def stateCount (df : List Row) (s : String) : Nat :=
  (df.filter (fun r => r.state_Display = s)).length

/-- The derived aggregate of one render cycle (app.py lines 376-387):
total, per-state counts and the open-subset severity histogram. -/
structure Snapshot where
  total : Nat
  newCount : Nat
  reopenCount : Nat
  closedCount : Nat
  resolvedCount : Nat
  sevCounts : List (String × Nat)
deriving Repr, DecidableEq

/-- The aggregate numbers `update_all` computes from a (non-empty) table. -/
def snapshotOf (df : List Row) : Snapshot :=
  { total := df.length
    newCount := stateCount df "New"
    reopenCount := stateCount df "Reopen"
    closedCount := stateCount df "Closed"
    resolvedCount := stateCount df "Resolved"
    sevCounts := severityCounts df }

/-- The all-zero aggregate: what a zero-filled snapshot of an empty
table looks like. -/
def zeroSnapshot : Snapshot :=
  { total := 0, newCount := 0, reopenCount := 0, closedCount := 0,
    resolvedCount := 0, sevCounts := severity_order.map (fun s => (s, 0)) }

/-- `update_all`'s aggregation step (app.py lines 330-387): when the
table is empty the callback returns early with blank outputs and no
aggregate is computed (`if df.empty: return None, {}, {}, {}, None, ""`);
otherwise the snapshot is computed. -/
def update_all_snapshot (df : List Row) : Option Snapshot :=
  if df.isEmpty then none else some (snapshotOf df)

/-! ## The loader `load_data` (app.py lines 31-75) -/

/-- One raw spreadsheet row, as far as `load_data`'s transformations
read it: the raw `State`, `Severity` (already passed through
`astype(str)`) and `Assigned To` cells. -/
structure RawRow where
  state : String
  severity : String
  assignedTo : String
deriving Repr, DecidableEq

/-- Raw file contents: whether the `Original Jira State` column is
present (Jira files) and the data rows. -/
structure RawTable where
  hasOriginalJiraState : Bool
  rows : List RawRow
deriving Repr, DecidableEq

/-- The required columns of `load_data` (app.py lines 40 and 56). -/
def required_cols : List String :=
  ["State", "ID", "Issue Links", "Severity", "Assigned To", "Title", "Tags", "Environment"]

/-- Input to `load_data`: either the configured spreadsheet file is
missing, or it is present with its contents. -/
inductive LoadInput where
  | missing : LoadInput
  | file : RawTable → LoadInput
deriving Repr, DecidableEq

/-- Result of `load_data`: the column list of the returned frame, the
transformed rows, and the warnings printed along the way. -/
structure LoadResult where
  columns : List String
  rows : List Row
  warnings : List String
deriving Repr, DecidableEq

/-- One row's transformation inside `load_data`: `State_Display` from
the state mapping (identity for Jira files, whose `State` column was
already mapped by the extractor), severity cleaned and bucketed. -/
def loadRow (hasOJS : Bool) (r : RawRow) : Row :=
  { state_Display := if hasOJS then r.state else devopsStateDisplay r.state
    severity := normalizeSeverity r.severity
    assignedTo := r.assignedTo }

/-- `load_data` (app.py lines 31-75): a missing file yields an empty
frame with the required columns and a printed warning, never an
exception; otherwise every row is normalized. -/
def load_data : LoadInput → LoadResult
  | .missing =>
    { columns := required_cols
      rows := []
      warnings := ["Warning: Excel file not found"] }
  | .file t =>
    { columns := required_cols
      rows := t.rows.map (loadRow t.hasOriginalJiraState)
      warnings := [] }

/-! ## DevOps extractor fetch loop (defectsextraction.py lines 74-189) -/

/-- The fields of one fetched DevOps work item the row-writing code
reads.  `assignedTo` models `fields.get("System.AssignedTo")`: `none`
when the field is absent (or null / an empty dict, all falsy in
Python), `some d` when a (truthy) identity dict is present whose
`displayName` entry is `d` (`none` inside when the key is missing). -/
structure DevOpsRecord where
  id : Nat
  title : String
  state : String
  assignedTo : Option (Option String)
  severity : String
deriving Repr, DecidableEq

/-- `value=fields.get("System.AssignedTo", {}).get("displayName", "")
if fields.get("System.AssignedTo") else ""`
(defectsextraction.py lines 176-178). -/
def devopsAssignedTo (a : Option (Option String)) : String :=
  match a with
  | some d => d.getD ""
  | none => ""

/-- Outcome of one per-item detail fetch in the DevOps loop. -/
inductive FetchOutcome where
  | success : DevOpsRecord → FetchOutcome
  | httpFail : Nat → FetchOutcome
  | timedOut : FetchOutcome
  | error : String → FetchOutcome
deriving Repr, DecidableEq

/-- The warnings the loop prints for non-success outcomes. -/
inductive Warn where
  | failedFetch : Warn
  | timeoutWarn : Warn
  | errorWarn : Warn
deriving Repr, DecidableEq

def isSuccess : FetchOutcome → Bool
  | .success _ => true
  | _ => false

def isTimedOut : FetchOutcome → Bool
  | .timedOut => true
  | _ => false

/-- The record of a successful fetch, if any. -/
def recOf : FetchOutcome → Option DevOpsRecord
  | .success r => some r
  | _ => none

/-- The warning printed for a non-success outcome, if any. -/
def warnOf : FetchOutcome → Option Warn
  | .success _ => none
  | .httpFail _ => some .failedFetch
  | .timedOut => some .timeoutWarn
  | .error _ => some .errorWarn

/-- The fetch loop (defectsextraction.py lines 74-189): items are
processed in order with a 1-based counter `idx`; a success writes the
record's cells at spreadsheet row `idx + 1`; a non-200 response, a
timeout or any other exception prints a warning and `continue`s.
Returns the written rows (row number paired with record, in write
order) and the warnings, given the outcomes in fetch order. -/
def fetchLoop : List FetchOutcome → Nat → List (Nat × DevOpsRecord) × List Warn
  | [], _ => ([], [])
  | o :: rest, idx =>
    let out := fetchLoop rest (idx + 1)
    match o with
    | .success r => ((idx + 1, r) :: out.1, out.2)
    | .httpFail _ => (out.1, .failedFetch :: out.2)
    | .timedOut => (out.1, .timeoutWarn :: out.2)
    | .error _ => (out.1, .errorWarn :: out.2)

/-- Result of one DevOps extraction run that reached the fetch loop
(query resolution succeeded and returned a non-empty id list). -/
structure DevOpsRunResult where
  rows : List (Nat × DevOpsRecord)
  warnings : List Warn
  exitSuccess : Bool
deriving Repr, DecidableEq

/-- The whole run after the id list was obtained
(defectsextraction.py lines 74-222): all exceptions inside the loop
are caught, the workbook is always saved and the script runs to its
end, so the run exits successfully. -/
def devopsExtract (outcomes : List FetchOutcome) : DevOpsRunResult :=
  let out := fetchLoop outcomes 1
  { rows := out.1, warnings := out.2, exitSuccess := true }

/-! ## Jira extractor (jiraextraction.py) -/

/-- Python truthiness-driven `or`-chain over optional strings: the
first value that is present and non-empty, else the default. -/
def firstTruthy : List (Option String) → String → String
  | [], dflt => dflt
  | a :: rest, dflt =>
    match a with
    | some v => if v = "" then firstTruthy rest dflt else v
    | none => firstTruthy rest dflt

/-- `split('@')[0]` of `assignee_obj.get('emailAddress', '')`. -/
def emailLocal (e : Option String) : String :=
  (e.getD "").takeWhile (fun c => c ≠ '@')

/-- The assignee field as the Jira loop reads it: a dict (with optional
`displayName`, `name`, `emailAddress` entries), a plain value whose
`str()` is kept, or absent/null. -/
inductive JiraAssignee where
  | adict : Option String → Option String → Option String → JiraAssignee
  | astr : String → JiraAssignee
  | absent : JiraAssignee
deriving Repr, DecidableEq

/-- The assignee extraction (jiraextraction.py lines 160-170):
`displayName or name or emailAddress.split('@')[0] or 'Unassigned'`
for a dict, `str(obj) if obj else 'Unassigned'` otherwise. -/
def jiraAssigneeName : JiraAssignee → String
  | .adict d nm e => firstTruthy [d, nm, some (emailLocal e)] "Unassigned"
  | .astr s => if s = "" then "Unassigned" else s
  | .absent => "Unassigned"

/-- A severity or priority field value: a dict with optional `value`
and `name` entries, or a plain value kept via `str()`. -/
inductive JiraField where
  | fstr : String → JiraField
  | fobj : Option String → Option String → JiraField
deriving Repr, DecidableEq

/-- `severity_obj.get('value') or severity_obj.get('name', 'Medium')`
for a dict, `str(severity_obj) if severity_obj else 'Medium'` otherwise
(jiraextraction.py lines 183-186). -/
def severityValueOf : JiraField → String
  | .fobj v nm =>
    match v with
    | some s => if s = "" then nm.getD "Medium" else s
    | none => nm.getD "Medium"
  | .fstr s => if s = "" then "Medium" else s

/-- The `severity_normalize_map` dict (jiraextraction.py lines 189-202). -/
def severity_normalize_map (s : String) : Option String :=
  if s = "Critical" then some "1 - Critical"
  else if s = "Blocker" then some "1 - Critical"
  else if s = "High" then some "2 - High"
  else if s = "Major" then some "2 - High"
  else if s = "Medium" then some "3 - Medium"
  else if s = "Moderate" then some "3 - Medium"
  else if s = "Low" then some "4 - Low"
  else if s = "Minor" then some "4 - Low"
  else if s = "Trivial" then some "5 - Suggestion"
  else if s = "Suggestion" then some "5 - Suggestion"
  else if s = "Lowest" then some "5 - Suggestion"
  else if s = "Cosmetic" then some "5 - Suggestion"
  else none

/-- Python's `str.capitalize()`: first character upper-cased, the rest
lower-cased. -/
def pyCapitalize (s : String) : String :=
  match s.data with
  | [] => ""
  | c :: rest => ⟨c.toUpper :: rest.map Char.toLower⟩

/-- The direct-severity branch (jiraextraction.py lines 181-210):
exact lookup first, then case-insensitive via `.capitalize()`, then
the `f'3 - {severity_value}'` fallback. -/
def jiraSeverityFromField (f : JiraField) : String :=
  let sv := severityValueOf f
  match severity_normalize_map sv with
  | some x => x
  | none => (severity_normalize_map (pyCapitalize sv)).getD ("3 - " ++ sv)

/-- The `priority_to_severity_map` dict (jiraextraction.py lines 222-236). -/
def priority_to_severity_map (s : String) : Option String :=
  if s = "Highest" then some "1 - Critical"
  else if s = "Critical" then some "1 - Critical"
  else if s = "Blocker" then some "1 - Critical"
  else if s = "High" then some "2 - High"
  else if s = "Major" then some "2 - High"
  else if s = "Medium" then some "3 - Medium"
  else if s = "Moderate" then some "3 - Medium"
  else if s = "Low" then some "4 - Low"
  else if s = "Minor" then some "4 - Low"
  else if s = "Trivial" then some "5 - Suggestion"
  else if s = "Lowest" then some "5 - Suggestion"
  else if s = "Suggestion" then some "5 - Suggestion"
  else if s = "Cosmetic" then some "5 - Suggestion"
  else none

/-- `priority_obj.get('name', 'Medium')` for a dict,
`str(priority_obj) if priority_obj else 'Medium'` otherwise
(jiraextraction.py lines 214-219). -/
def priorityNameOf : Option JiraField → String
  | some (.fobj _ nm) => nm.getD "Medium"
  | some (.fstr s) => if s = "" then "Medium" else s
  | none => "Medium"

/-- The full severity extraction (jiraextraction.py lines 172-241).
`sevObj` is the truthy result of the four severity-field lookups
(`none` when all of them are absent or falsy, taking the `else` of
`if severity_obj:`), `priObj` the priority field. -/
def jiraSeverity (sevObj priObj : Option JiraField) : String :=
  match sevObj with
  | some f => jiraSeverityFromField f
  | none =>
    (priority_to_severity_map (priorityNameOf priObj)).getD
      ("3 - " ++ priorityNameOf priObj)

/-! ## Jira pagination loop and output (jiraextraction.py lines 53-118) -/

/-- One issue of a search page (only its identity matters here). -/
structure JiraIssue where
  key : String
deriving Repr, DecidableEq

/-- One response of the paginated `/search/jql` loop: a 200 page with
its issues, `nextPageToken` (`none` for absent/falsy) and `isLast`
flag, or a non-200 status, timeout or other exception. -/
inductive PageResult where
  | ok : List JiraIssue → Option String → Bool → PageResult
  | httpErr : Nat → PageResult
  | timedOut : PageResult
  | exn : String → PageResult
deriving Repr, DecidableEq

/-- A failed page request (non-200 / timeout / exception). -/
def isFailPage : PageResult → Bool
  | .ok _ _ _ => false
  | _ => true

/-- The `while True` pagination loop (jiraextraction.py lines 58-101):
extend `all_issues` with each 200 page; stop on `isLast` or a missing
`nextPageToken`; any non-200, timeout or exception `break`s, keeping
what was already accumulated. -/
def searchLoop : List PageResult → List JiraIssue → List JiraIssue
  | [], acc => acc
  | p :: rest, acc =>
    match p with
    | .ok issues tok last =>
      let acc2 := acc ++ issues
      if last || tok.isNone then acc2 else searchLoop rest acc2
    | _ => acc

/-- `save_path = os.path.join(data_folder, f"Jira {jira_project_key} Defects.xlsx")`
(jiraextraction.py lines 115 and 273) — the same fixed path in the
empty-result branch and the normal branch. -/
def savePath (key : String) : String :=
  "data/Jira " ++ key ++ " Defects.xlsx"

/-- Result of one Jira extraction run: the data rows written below the
header, the output path, and the exit status. -/
structure JiraRunResult where
  rows : List JiraIssue
  path : String
  exitSuccess : Bool
deriving Repr, DecidableEq

/-- The whole Jira run (jiraextraction.py lines 53-281): run the
pagination loop; with no issues write a header-only workbook and
`exit()` (exit code 0), otherwise write one row per issue; either way
the workbook is saved to the fixed path and the run ends successfully. -/
def jiraRun (key : String) (pages : List PageResult) : JiraRunResult :=
  { rows := searchLoop pages []
    path := savePath key
    exitSuccess := true }

/-- `wb.save(save_path)` fully overwrites the file: the persisted
contents after a save are the new rows, whatever was there before. -/
def overwriteSave (_prev newRows : List JiraIssue) : List JiraIssue :=
  newRows

/-! ## Drill-down filter logic of `update_all` (app.py lines 511-546) -/

/-- The callback trigger (`ctx.triggered[0]['prop_id']`): a chart
click, a data-store refresh, or any other input. -/
inductive Trigger where
  | dataStore : Trigger
  | pieChart : Trigger
  | barChartState : Trigger
  | barChartSeverity : Trigger
  | otherTrigger : Trigger
deriving Repr, DecidableEq

/-- The stored `filter-state` (`{'type': 'severity'|'state', 'value': v}`). -/
inductive FilterSpec where
  | bySeverity : String → FilterSpec
  | byState : String → FilterSpec
deriving Repr, DecidableEq

/-- The filter determination of `update_all` (app.py lines 511-546):
start from the open subset; a chart click (with a truthy click payload)
filters and stores a new filter; a data-store trigger with a stored
filter re-applies it — severity filters over the open subset, state
filters over the whole table; anything else leaves the open subset
unfiltered.  Returns the drill-down rows and the new stored filter. -/
def update_filter (trigger : Trigger) (pieClick barStateClick barSevClick : Option String)
    (df : List Row) (fs : Option FilterSpec) : List Row × Option FilterSpec :=
  let dfOpen := openRows df
  match trigger with
  | .pieChart =>
    match pieClick with
    | some v => (dfOpen.filter (fun r => r.severity = v), some (.bySeverity v))
    | none => (dfOpen, fs)
  | .barChartSeverity =>
    match barSevClick with
    | some v => (dfOpen.filter (fun r => r.severity = v), some (.bySeverity v))
    | none => (dfOpen, fs)
  | .barChartState =>
    match barStateClick with
    | some v => (df.filter (fun r => r.state_Display = v), some (.byState v))
    | none => (dfOpen, fs)
  | .dataStore =>
    match fs with
    | some (.bySeverity v) => (dfOpen.filter (fun r => r.severity = v), fs)
    | some (.byState v) => (df.filter (fun r => r.state_Display = v), fs)
    | none => (dfOpen, fs)
  | .otherTrigger => (dfOpen, fs)

/-! ## Concrete inputs used by witnesses and counterexamples -/

/-- A simple successful DevOps record. -/
def mkRec (n : Nat) : DevOpsRecord :=
  { id := n, title := "t", state := "New",
    assignedTo := some (some "Dev"), severity := "2 - High" }

/-- Ten fetch outcomes: the fourth times out, the other nine succeed. -/
def demoOutcomes : List FetchOutcome :=
  [.success (mkRec 1), .success (mkRec 2), .success (mkRec 3), .timedOut,
   .success (mkRec 5), .success (mkRec 6), .success (mkRec 7),
   .success (mkRec 8), .success (mkRec 9), .success (mkRec 10)]

/-- A fetched work item with no `System.AssignedTo` field. -/
def unassignedRec : DevOpsRecord :=
  { id := 7, title := "t", state := "New", assignedTo := none, severity := "1 - Critical" }

/-- The `Assigned To` cell written for a record
(defectsextraction.py lines 176-178). -/
def writtenAssignedTo (r : DevOpsRecord) : String :=
  devopsAssignedTo r.assignedTo

/-- A first search page with zero issues but `isLast=false` and a next
page token, followed by a last page with one issue. -/
def cexPages : List PageResult :=
  [.ok [] (some "tok") false, .ok [⟨"PROJ-9"⟩] none true]

/-- The table loaded from a one-row DevOps file whose severity cell is
"N/A": the row is open (state "New") with bucketed severity "Unknown". -/
def cexLoadedTable : List Row :=
  (load_data (.file ⟨false, [⟨"New", "N/A", "A"⟩]⟩)).rows

/-- Two runs of the load step on the same input. -/
def loadTwice (inp : LoadInput) : LoadResult × LoadResult :=
  (load_data inp, load_data inp)

/-! ## Helper lemmas -/

lemma dropWhile_idem {α : Type} (p : α → Bool) (l : List α) :
    (l.dropWhile p).dropWhile p = l.dropWhile p := by
  induction l with
  | nil => rfl
  | cons a l ih =>
    by_cases h : p a = true
    · simp [List.dropWhile, h, ih]
    · simp [List.dropWhile, h]

lemma dropWhile_append_all {α : Type} (p : α → Bool) (d l : List α)
    (h : ∀ c ∈ d, p c = true) : (d ++ l).dropWhile p = l.dropWhile p := by
  induction d with
  | nil => rfl
  | cons c d ih =>
    have hc : p c = true := h c (by simp)
    simp only [List.cons_append, List.dropWhile, hc]
    exact ih (fun x hx => h x (by simp [hx]))

lemma pyStrip_dropWhile (l : List Char) :
    pyStrip ⟨l.dropWhile isPySpace⟩ = pyStrip ⟨l⟩ := by
  unfold pyStrip
  rw [show (String.mk (l.dropWhile isPySpace)).data = l.dropWhile isPySpace from rfl,
      dropWhile_idem]

lemma length_filter_or {α : Type} (l : List α) (p q : α → Bool)
    (h : ∀ a ∈ l, ¬(p a = true ∧ q a = true)) :
    (l.filter (fun a => p a || q a)).length
      = (l.filter p).length + (l.filter q).length := by
  induction l with
  | nil => rfl
  | cons a l ih =>
    have ht := ih (fun x hx => h x (by simp [hx]))
    cases hp : p a <;> cases hq : q a
    · simp [List.filter_cons, hp, hq, ht]
    · simp [List.filter_cons, hp, hq, ht]
      omega
    · simp [List.filter_cons, hp, hq, ht]
      omega
    · exact absurd ⟨hp, hq⟩ (h a (by simp))

/-! ## Claims -/

/-- C2: after `load_data`'s cleaning every severity value is one of the
five canonical buckets or "Unknown" — never empty, never a raw
numeric-prefixed string — and any raw value with a leading
`"<digits> - "` prefix has the prefix stripped before the bucket lookup. -/
theorem c2_severity_canonical :
    (∀ raw : String,
      normalizeSeverity raw ∈
        ["Critical", "High", "Medium", "Low", "Suggestion", "Unknown"]) ∧
    (∀ raw : String, normalizeSeverity raw ≠ "") ∧
    (∀ d rest : String, d.data ≠ [] → (∀ c ∈ d.data, c.isDigit = true) →
      normalizeSeverity (d ++ " - " ++ rest)
        = (severity_map (pyStrip rest)).getD "Unknown") := by
  have hmem : ∀ x : String,
      (severity_map x).getD "Unknown" ∈
        ["Critical", "High", "Medium", "Low", "Suggestion", "Unknown"] := by
    intro x
    unfold severity_map
    split_ifs <;> simp
  refine ⟨fun raw => hmem _, fun raw => ?_, fun d rest hne hdig => ?_⟩
  · intro hcon
    have h2 := hmem (pyStrip (stripSevNum raw))
    unfold normalizeSeverity at hcon
    rw [hcon] at h2
    simp at h2
  · obtain ⟨ld⟩ := d
    cases ld with
    | nil => exact absurd rfl hne
    | cons c cs =>
      have hc : c.isDigit = true := hdig c (by simp)
      have heq : (String.mk (c :: cs) ++ " - " ++ rest)
          = ⟨c :: (cs ++ (' ' :: '-' :: ' ' :: rest.data))⟩ := by
        show String.mk ((c :: cs) ++ (' ' :: '-' :: ' ' :: []) ++ rest.data) = _
        simp
      have hdrop : (c :: (cs ++ (' ' :: '-' :: ' ' :: rest.data))).dropWhile Char.isDigit
          = ' ' :: '-' :: ' ' :: rest.data := by
        have h3 := dropWhile_append_all Char.isDigit (c :: cs)
          (' ' :: '-' :: ' ' :: rest.data) hdig
        simpa using h3
      have hstrip : stripSevNum ⟨c :: (cs ++ (' ' :: '-' :: ' ' :: rest.data))⟩
          = ⟨rest.data.dropWhile isPySpace⟩ := by
        unfold stripSevNum
        simp only [hc, if_true]
        rw [hdrop]
        rfl
      rw [heq]
      unfold normalizeSeverity
      rw [hstrip, pyStrip_dropWhile]

/-- C2 witness: the theorem applied to the digit string "1" and rest
"Critical": "1 - Critical" is bucketed as the prefix-free "Critical". -/
theorem c2_severity_canonical_witness :
    ("1" : String).data ≠ [] ∧ (∀ c ∈ ("1" : String).data, c.isDigit = true) ∧
    normalizeSeverity ("1" ++ " - " ++ "Critical")
      = (severity_map (pyStrip "Critical")).getD "Unknown" :=
  ⟨by decide, by decide,
   c2_severity_canonical.2.2 "1" "Critical" (by decide) (by decide)⟩

/-- C3: a state value missing from the mapping table passes through
unchanged, both for the DevOps load-side mapping of `load_data` and for
the Jira extraction-side `STATE_MAPPING`. -/
theorem c3_state_identity_fallback :
    (∀ s : String, state_mapping s = none → devopsStateDisplay s = s) ∧
    (∀ s : String, STATE_MAPPING s = none → jiraMappedState s = s) :=
  ⟨fun s h => by rw [devopsStateDisplay, h]; rfl,
   fun s h => by rw [jiraMappedState, h]; rfl⟩

/-- C3 witness: the identity fallback at the unmapped states "Blocked"
(DevOps side) and "Escalated" (Jira side). -/
theorem c3_state_identity_fallback_witness :
    state_mapping "Blocked" = none ∧ devopsStateDisplay "Blocked" = "Blocked" ∧
    STATE_MAPPING "Escalated" = none ∧ jiraMappedState "Escalated" = "Escalated" :=
  ⟨by decide, c3_state_identity_fallback.1 "Blocked" (by decide),
   by decide, c3_state_identity_fallback.2 "Escalated" (by decide)⟩

/-- C7: a Jira issue with no (truthy) severity field and a priority
named "Highest" gets extraction-side severity "1 - Critical", and the
load-side cleaning buckets it as "Critical". -/
theorem c7_highest_maps_to_critical :
    ∀ priObj : Option JiraField, priorityNameOf priObj = "Highest" →
      normalizeSeverity (jiraSeverity none priObj) = "Critical" := by
  intro p h
  show normalizeSeverity ((priority_to_severity_map (priorityNameOf p)).getD
        ("3 - " ++ priorityNameOf p)) = "Critical"
  rw [h]
  decide

/-- C7 witness: the theorem at a priority dict `{'name': 'Highest'}`. -/
theorem c7_highest_maps_to_critical_witness :
    priorityNameOf (some (JiraField.fobj none (some "Highest"))) = "Highest" ∧
    normalizeSeverity (jiraSeverity none (some (JiraField.fobj none (some "Highest"))))
      = "Critical" :=
  ⟨rfl, c7_highest_maps_to_critical _ rfl⟩

lemma sum_counts_eq_filter_mem (l : List Row) :
    ∀ keys : List String, keys.Nodup →
      (keys.map (fun s => (l.filter (fun r => r.severity = s)).length)).sum
        = (l.filter (fun r => decide (r.severity ∈ keys))).length := by
  intro keys
  induction keys with
  | nil =>
    intro _
    simp
  | cons s keys ih =>
    intro hnd
    rw [List.nodup_cons] at hnd
    have hdisj : ∀ r ∈ l,
        ¬(decide (r.severity = s) = true ∧ decide (r.severity ∈ keys) = true) := by
      rintro r _ ⟨h1, h2⟩
      simp only [decide_eq_true_eq] at h1 h2
      exact hnd.1 (h1 ▸ h2)
    have hor := length_filter_or l (fun r => decide (r.severity = s))
      (fun r => decide (r.severity ∈ keys)) hdisj
    have hpred : (fun r : Row => decide (r.severity ∈ s :: keys))
        = fun r => (decide (r.severity = s) || decide (r.severity ∈ keys)) := by
      funext r
      by_cases h1 : r.severity = s <;> by_cases h2 : r.severity ∈ keys <;>
        simp [h1, h2, List.mem_cons]
    simp only [List.map_cons, List.sum_cons, ih hnd.2, hpred, hor]

/-- C1 counterexample: the table loaded from a one-row file with
severity cell "N/A" has one open row, but its severity histogram sums
to 0 — the "Unknown" bucket is dropped by the `reindex`, so the claimed
equality with the open-row count fails on this loaded table. -/
theorem c1_histogram_cex :
    ((severityCounts cexLoadedTable).map Prod.snd).sum = 0 ∧
    (openRows cexLoadedTable).length = 1 := by
  constructor <;> decide

/-- C1 (amended): the open-subset severity histogram is ordered by the
fixed `severity_order` list with an entry for every listed severity
(zero when the bucket is absent), and sums to the number of open rows
whose severity is one of the five listed buckets — open rows with any
other severity (in particular "Unknown") are excluded by the reindex. -/
theorem c1_histogram_amended :
    ∀ df : List Row,
      ((severityCounts df).map Prod.fst = severity_order) ∧
      (((severityCounts df).map Prod.snd).sum
        = ((openRows df).filter (fun r => decide (r.severity ∈ severity_order))).length) ∧
      (∀ s : String, s ∈ severity_order →
        (s, ((openRows df).filter (fun r => r.severity = s)).length) ∈ severityCounts df) := by
  intro df
  refine ⟨rfl, ?_, fun s hs => List.mem_map.2 ⟨s, hs, rfl⟩⟩
  have h := sum_counts_eq_filter_mem (openRows df) severity_order (by decide)
  simpa [severityCounts, List.map_map, Function.comp] using h

/-- C1 witness: the amended theorem at the empty table and the listed
severity "Low": the histogram carries the zero-filled entry ("Low", 0). -/
theorem c1_histogram_amended_witness :
    "Low" ∈ severity_order ∧
    ("Low", ((openRows ([] : List Row)).filter (fun r => r.severity = "Low")).length)
      ∈ severityCounts ([] : List Row) :=
  ⟨by decide, (c1_histogram_amended []).2.2 "Low" (by decide)⟩

lemma fetchLoop_rows (l : List FetchOutcome) :
    ∀ i, ((fetchLoop l i).1.map Prod.snd) = l.filterMap recOf := by
  induction l with
  | nil => intro i; rfl
  | cons o l ih =>
    intro i
    cases o <;> simp [fetchLoop, recOf, List.filterMap_cons, ih]

lemma fetchLoop_warns (l : List FetchOutcome) :
    ∀ i, (fetchLoop l i).2 = l.filterMap warnOf := by
  induction l with
  | nil => intro i; rfl
  | cons o l ih =>
    intro i
    cases o <;> simp [fetchLoop, warnOf, List.filterMap_cons, ih]

lemma fetchLoop_rows_length (l : List FetchOutcome) :
    ∀ i, (fetchLoop l i).1.length = (l.filter isSuccess).length := by
  induction l with
  | nil => intro i; rfl
  | cons o l ih =>
    intro i
    cases o <;> simp [fetchLoop, isSuccess, List.filter_cons, ih]

lemma filter_disjoint_le {α : Type} (l : List α) (p q : α → Bool)
    (h : ∀ a ∈ l, ¬(p a = true ∧ q a = true)) :
    (l.filter p).length + (l.filter q).length ≤ l.length := by
  rw [← length_filter_or l p q h]
  exact List.length_filter_le _ _

lemma warns_all_timeout (l : List FetchOutcome)
    (h : (l.filter isSuccess).length + (l.filter isTimedOut).length = l.length) :
    l.filterMap warnOf
      = List.replicate (l.filter isTimedOut).length Warn.timeoutWarn := by
  induction l with
  | nil => rfl
  | cons o l ih =>
    have hle := filter_disjoint_le l isSuccess isTimedOut
      (by rintro a _ ⟨h1, h2⟩; cases a <;> simp [isSuccess, isTimedOut] at h1 h2)
    cases o with
    | success r =>
      simp only [List.filter_cons, isSuccess, isTimedOut, List.length_cons,
        List.filterMap_cons, warnOf, cond_true, cond_false, if_true, if_false] at h ⊢
      simp at h ⊢
      exact ih (by omega)
    | timedOut =>
      have h' : (l.filter isSuccess).length + (l.filter isTimedOut).length
          = l.length := by
        simp [List.filter_cons, isSuccess, isTimedOut] at h
        omega
      simp only [List.filterMap_cons, warnOf, List.filter_cons, isTimedOut, if_true]
      rw [ih h']
      simp [List.replicate_succ]
    | httpFail n =>
      exfalso
      simp [List.filter_cons, isSuccess, isTimedOut] at h
      omega
    | error m =>
      exfalso
      simp [List.filter_cons, isSuccess, isTimedOut] at h
      omega

/-- C4: a DevOps run of 10 work items where exactly one detail fetch
times out and the other 9 succeed writes exactly 9 data rows — one per
successfully fetched issue, in fetch order — logs exactly one timeout
warning, and the run exits successfully. -/
theorem c4_timeout_skipped :
    ∀ outcomes : List FetchOutcome,
      outcomes.length = 10 →
      (outcomes.filter isSuccess).length = 9 →
      (outcomes.filter isTimedOut).length = 1 →
      (devopsExtract outcomes).rows.length = 9 ∧
      (devopsExtract outcomes).rows.map Prod.snd = outcomes.filterMap recOf ∧
      (devopsExtract outcomes).warnings = [Warn.timeoutWarn] ∧
      (devopsExtract outcomes).exitSuccess = true := by
  intro outcomes hlen hs ht
  refine ⟨?_, fetchLoop_rows outcomes 1, ?_, rfl⟩
  · show (fetchLoop outcomes 1).1.length = 9
    rw [fetchLoop_rows_length outcomes 1, hs]
  · show (fetchLoop outcomes 1).2 = _
    rw [fetchLoop_warns outcomes 1,
        warns_all_timeout outcomes (by rw [hs, ht, hlen]), ht]
    rfl

/-- C4 witness: the theorem at ten concrete outcomes, nine successes
and one timeout. -/
theorem c4_timeout_skipped_witness :
    (devopsExtract demoOutcomes).rows.length = 9 ∧
    (devopsExtract demoOutcomes).warnings = [Warn.timeoutWarn] ∧
    (devopsExtract demoOutcomes).exitSuccess = true := by
  have h := c4_timeout_skipped demoOutcomes (by decide) (by decide) (by decide)
  exact ⟨h.1, h.2.2.1, h.2.2.2⟩

lemma firstTruthy_ne (l : List (Option String)) (dflt : String) (h : dflt ≠ "") :
    firstTruthy l dflt ≠ "" := by
  induction l with
  | nil => exact h
  | cons a l ih =>
    cases a with
    | none => exact ih
    | some v =>
      by_cases hv : v = ""
      · simpa [firstTruthy, hv] using ih
      · simp [firstTruthy, hv]

/-- C5 counterexample: a successfully fetched DevOps work item with no
`System.AssignedTo` field is extracted with an empty `Assigned To`
cell — not a display name and not "Unassigned". -/
theorem c5_assigned_cex :
    (devopsExtract [FetchOutcome.success unassignedRec]).rows.map
      (fun p => writtenAssignedTo p.2) = [""] := rfl

/-- C5 (amended): every Jira-extracted row's assignee is non-empty (a
display name or "Unassigned"), but the DevOps extractor writes the
empty string — not "Unassigned" — exactly when the work item's
`System.AssignedTo` is absent or falsy, or carries no non-empty
`displayName`. -/
theorem c5_assigned_amended :
    (∀ a : JiraAssignee, jiraAssigneeName a ≠ "") ∧
    (∀ v : Option (Option String),
      devopsAssignedTo v = "" ↔ v = none ∨ v = some none ∨ v = some (some "")) := by
  constructor
  · intro a
    cases a with
    | adict d nm e => exact firstTruthy_ne _ _ (by decide)
    | astr s =>
      by_cases h : s = "" <;> simp [jiraAssigneeName, h]
    | absent => simp [jiraAssigneeName]
  · intro v
    match v with
    | none => simp [devopsAssignedTo]
    | some none => simp [devopsAssignedTo]
    | some (some s) => simp [devopsAssignedTo]

/-- C6 counterexample: for the missing-file load, the dashboard's
aggregation callback short-circuits on the empty table and returns no
aggregate at all — it does not yield a zero-filled snapshot. -/
theorem c6_missing_file_cex :
    update_all_snapshot ((load_data LoadInput.missing).rows) ≠ some zeroSnapshot := by
  simp [load_data, update_all_snapshot]

/-- C6 (amended): loading a missing spreadsheet file yields an empty
table with the required columns and a logged warning, never an
exception; `update_all` then short-circuits on the empty table and
computes no aggregate (blank outputs) — the snapshot of the empty
table, had it been computed, would be zero-filled. -/
theorem c6_missing_file_amended :
    (load_data LoadInput.missing).rows = [] ∧
    (load_data LoadInput.missing).columns = required_cols ∧
    (load_data LoadInput.missing).warnings ≠ [] ∧
    update_all_snapshot ((load_data LoadInput.missing).rows) = none ∧
    snapshotOf [] = zeroSnapshot := by
  refine ⟨rfl, rfl, by simp [load_data], rfl, ?_⟩
  rfl

/-- C8: a stored chart-click filter is re-applied on every data-store
refresh — a severity filter selects the open rows with that severity, a
state filter the rows with that display state — and the stored filter
survives the refresh unchanged until a new chart click stores a new
one. -/
theorem c8_filter_persistence :
    (∀ (df : List Row) (p b s : Option String) (v : String),
      update_filter Trigger.dataStore p b s df (some (FilterSpec.bySeverity v))
        = ((openRows df).filter (fun r => r.severity = v),
            some (FilterSpec.bySeverity v))) ∧
    (∀ (df : List Row) (p b s : Option String) (v : String),
      update_filter Trigger.dataStore p b s df (some (FilterSpec.byState v))
        = (df.filter (fun r => r.state_Display = v), some (FilterSpec.byState v))) ∧
    (∀ (df : List Row) (b s : Option String) (v : String) (fs : Option FilterSpec),
      (update_filter Trigger.pieChart (some v) b s df fs).2
        = some (FilterSpec.bySeverity v)) :=
  ⟨fun _ _ _ _ _ => rfl, fun _ _ _ _ _ => rfl, fun _ _ _ _ _ => rfl⟩

/-- C9: the load step is deterministic in the file contents — loading
the same input twice yields identical tables and identical derived
aggregates. -/
theorem c9_load_deterministic :
    ∀ inp : LoadInput,
      (loadTwice inp).1 = (loadTwice inp).2 ∧
      update_all_snapshot (loadTwice inp).1.rows
        = update_all_snapshot (loadTwice inp).2.rows ∧
      snapshotOf (loadTwice inp).1.rows = snapshotOf (loadTwice inp).2.rows :=
  fun _ => ⟨rfl, rfl, rfl⟩

/-- C10 counterexample: a first search page with zero issues but
`isLast=false` and a next-page token does not produce a header-only
workbook — pagination continues and later pages' issues are written. -/
theorem c10_first_page_cex :
    cexPages.head? = some (PageResult.ok [] (some "tok") false) ∧
    (jiraRun "PROJ" cexPages).rows ≠ [] := by
  exact ⟨rfl, by simp [jiraRun, cexPages, searchLoop]⟩

/-- C10 (amended): if the first search-page request fails (non-200,
timeout or exception), or returns zero issues and ends pagination
(`isLast` true or no next-page token), the extractor writes a
header-only workbook (no data rows) to the fixed output path, fully
overwriting any previously persisted rows, and exits successfully. -/
theorem c10_first_page_empty_amended :
    ∀ (key : String) (first : PageResult) (rest : List PageResult)
      (prev : List JiraIssue),
      (isFailPage first = true ∨
        ∃ tok last, first = PageResult.ok [] tok last ∧ (last = true ∨ tok = none)) →
      (jiraRun key (first :: rest)).rows = [] ∧
      (jiraRun key (first :: rest)).path = savePath key ∧
      (jiraRun key (first :: rest)).exitSuccess = true ∧
      overwriteSave prev (jiraRun key (first :: rest)).rows = [] := by
  intro key first rest prev h
  have hrows : (jiraRun key (first :: rest)).rows = [] := by
    show searchLoop (first :: rest) [] = []
    rcases h with hfail | ⟨tok, last, rfl, hstop⟩
    · cases first with
      | ok issues tok last => simp [isFailPage] at hfail
      | httpErr n => rfl
      | timedOut => rfl
      | exn m => rfl
    · rcases hstop with rfl | rfl <;> simp [searchLoop]
  exact ⟨hrows, rfl, rfl, by rw [overwriteSave, hrows]⟩

/-- C10 witness: the amended theorem at a failing (401) first page,
with one previously persisted row being overwritten. -/
theorem c10_first_page_empty_amended_witness :
    isFailPage (PageResult.httpErr 401) = true ∧
    (jiraRun "PROJ" [PageResult.httpErr 401]).rows = [] ∧
    (jiraRun "PROJ" [PageResult.httpErr 401]).exitSuccess = true ∧
    overwriteSave [⟨"OLD-1"⟩] (jiraRun "PROJ" [PageResult.httpErr 401]).rows = [] := by
  have h := c10_first_page_empty_amended "PROJ" (PageResult.httpErr 401) [] [⟨"OLD-1"⟩]
    (Or.inl rfl)
  exact ⟨rfl, h.1, h.2.2.1, h.2.2.2⟩

end Defects
